import Mathlib

/-!
Shallow embedding of the dcs-tetrad frame-capture and persistence pipeline
(`src/dcs.rs`, `src/worker.rs`, `src/lib.rs`, `src/monitor.rs`) together with
theorems settling the specification claims about it.

Modelling conventions:
* Rust `f64` values are modelled as `Rat`; the only float operations the
  claims depend on are comparisons, addition, subtraction and division on
  values far from the limits of `f64` precision, where `Rat` agrees with
  `f64` semantics for the inputs used here.  The float literal `0.1` in
  `monitor.rs` is modelled as the rational `1/10`.
* Rust panics (`unwrap`, `expect`, `panic!`) are modelled as `Option.none`
  propagating outward; a function that cannot panic is total.
* A `csv::Writer<ZstdEncoder<File>>` is modelled as the list of rows it has
  been given plus a count of `flush` calls; file-system and compressor I/O
  is outside the model.  One written row is a list of tagged fields, a
  field keeping the value the source formats into text.
* An `mpsc` channel send is modelled by whether the receiving end is still
  alive; `Sender::send` fails exactly when it is not.
* Lua tables reaching the library from the host are modelled as ordered
  association lists; `mlua`'s typed `get` fails when the key is absent
  (value `nil`) or the value has the wrong shape, matching the conversion
  failures the source handles.
-/

namespace Tetrad

/-- One field of a delimited output row, tagging the value that the source
formats into text. -/
inductive CsvField where
  | str : String → CsvField
  | int : Int → CsvField
  | num : Rat → CsvField
deriving DecidableEq, Repr

/-- One output row. -/
abbrev CsvRow := List CsvField

/-- Model of `csv::Writer<ZstdEncoder<'static, File>>`: the rows written so
far, how often the writer has been flushed, and whether the underlying
zstd encoder has been finalized.  `flush` pushes buffered bytes through the
encoder but does not write the zstd frame epilogue; only
`ZstdEncoder::finish` (or the `auto_finish` wrapper, which the source does
not use either) terminates the compressed frame, so `finalized` records
whether that call was ever made. -/
structure CsvWriter where
  rows : List CsvRow
  flushes : Nat
  finalized : Bool
deriving DecidableEq, Repr

/-- Model of `worker::create_csv_file`: a freshly opened, empty writer (the
directory/file creation I/O is outside the model); its compressed stream is
not yet finalized. -/
def create_csv_file : CsvWriter :=
  { rows := [], flushes := 0, finalized := false }

/-! Lua values and tables as supplied by the host (`mlua` boundary). -/

/-- A Lua value as seen through `mlua`; a table is an association list from
string keys to values. -/
inductive LuaValue where
  | nil : LuaValue
  | num : Rat → LuaValue
  | str : String → LuaValue
  | table : List (String × LuaValue) → LuaValue

/-- A Lua table: ordered key/value association list. -/
abbrev LuaTable := List (String × LuaValue)

/-- Raw `table.get::<Value>(key)`: never fails, missing keys give `nil`. -/
def tableGet : LuaTable → String → LuaValue
  | [], _ => .nil
  | (k, v) :: rest, key => if k = key then v else tableGet rest key

/-- `table.get::<f64>(key)`: succeeds only on a number. -/
def tableGetNum (t : LuaTable) (key : String) : Except Unit Rat :=
  match tableGet t key with
  | .num q => .ok q
  | _ => .error ()

/-- `table.get::<i32>(key)`: succeeds on an integral number. -/
def tableGetInt (t : LuaTable) (key : String) : Except Unit Int :=
  match tableGet t key with
  | .num q => if q.den = 1 then .ok q.num else .error ()
  | _ => .error ()

/-- `table.get::<String>(key)`: succeeds only on a string. -/
def tableGetStr (t : LuaTable) (key : String) : Except Unit String :=
  match tableGet t key with
  | .str s => .ok s
  | _ => .error ()

/-! Entity model (`src/dcs.rs`). -/

/-- `dcs::LatLonAlt`. -/
structure LatLonAlt where
  lat : Rat
  lon : Rat
  alt : Rat
deriving DecidableEq, Repr

/-- `dcs::DcsPosition`. -/
structure DcsPosition where
  x : Rat
  y : Rat
  z : Rat
deriving DecidableEq, Repr

/-- `dcs::DcsWorldObject`. -/
structure DcsWorldObject where
  id : Int
  name : String
  country : Int
  coalition : String
  coalition_id : Int
  lat_lon_alt : LatLonAlt
  heading : Rat
  pitch : Rat
  bank : Rat
  position : DcsPosition
deriving DecidableEq, Repr

/-- `dcs::DcsWorldUnit`. -/
structure DcsWorldUnit where
  object : DcsWorldObject
  unit_name : String
  group_name : String
deriving DecidableEq, Repr

/-- `DcsWorldObject::from_lua_with_id`: every field access `.unwrap()`s (or
pattern-match panics), so a missing required field or malformed nested
structure is a panic, modelled as `none`. -/
def DcsWorldObject.from_lua_with_id (id : Int) (table : LuaTable) :
    Option DcsWorldObject := do
  let lat_lon_alt_t ←
    match tableGet table "LatLongAlt" with
    | .table t => some t
    | _ => none
  let position_t ←
    match tableGet table "Position" with
    | .table t => some t
    | _ => none
  let lat ← (tableGetNum lat_lon_alt_t "Lat").toOption
  let lon ← (tableGetNum lat_lon_alt_t "Long").toOption
  let alt ← (tableGetNum lat_lon_alt_t "Alt").toOption
  let x ← (tableGetNum position_t "x").toOption
  let y ← (tableGetNum position_t "y").toOption
  let z ← (tableGetNum position_t "z").toOption
  let name ← (tableGetStr table "Name").toOption
  let country ← (tableGetInt table "Country").toOption
  let coalition ← (tableGetStr table "Coalition").toOption
  let coalition_id ← (tableGetInt table "CoalitionID").toOption
  let heading ← (tableGetNum table "Heading").toOption
  let pitch ← (tableGetNum table "Pitch").toOption
  let bank ← (tableGetNum table "Bank").toOption
  some
    { id := id
      name := name
      country := country
      coalition := coalition
      coalition_id := coalition_id
      lat_lon_alt := { lat := lat, lon := lon, alt := alt }
      heading := heading
      pitch := pitch
      bank := bank
      position := { x := x, y := y, z := z } }

/-- `DcsWorldUnit::from_lua_with_id`: a failed `UnitName`/`GroupName` read
falls back to the `"NoName"` sentinel, while the embedded object
construction is `.unwrap()`ed (panic on failure, modelled as `none`). -/
def DcsWorldUnit.from_lua_with_id (id : Int) (table : LuaTable) :
    Option DcsWorldUnit :=
  let unit_name :=
    match tableGetStr table "UnitName" with
    | .error _ => "NoName"
    | .ok val => val
  let group_name :=
    match tableGetStr table "GroupName" with
    | .error _ => "NoName"
    | .ok val => val
  (DcsWorldObject.from_lua_with_id id table).map fun object =>
    { object := object, unit_name := unit_name, group_name := group_name }

/-- `dcs::get_unit_objects`: builds every unit in table order, `.unwrap()`ing
each construction, so one failing entity panics the whole traversal. -/
def get_unit_objects : List (Int × LuaTable) → Option (List DcsWorldUnit)
  | [] => some []
  | (key, value) :: rest => do
      let u ← DcsWorldUnit.from_lua_with_id key value
      let v ← get_unit_objects rest
      some (u :: v)

/-- `dcs::get_ballistics_objects`: same traversal for ballistic objects. -/
def get_ballistics_objects :
    List (Int × LuaTable) → Option (List DcsWorldObject)
  | [] => some []
  | (key, value) :: rest => do
      let o ← DcsWorldObject.from_lua_with_id key value
      let v ← get_ballistics_objects rest
      some (o :: v)

/-! Serialization of entities to the object stream (`src/dcs.rs`). -/

/-- Fields contributed by `dcs::FrameObjectRecord` in declaration order. -/
def FrameObjectRecord.fields (frame_count : Int) (frame_time : Rat)
    (unit_name group_name : String) : CsvRow :=
  [CsvField.int frame_count, CsvField.num frame_time,
   CsvField.str unit_name, CsvField.str group_name]

/-- Fields contributed by serializing a `DcsWorldObject` value, in struct
declaration order with nested structs flattened (csv serde behaviour). -/
def DcsWorldObject.serializeFields (o : DcsWorldObject) : CsvRow :=
  [CsvField.int o.id, CsvField.str o.name, CsvField.int o.country,
   CsvField.str o.coalition, CsvField.int o.coalition_id,
   CsvField.num o.lat_lon_alt.lat, CsvField.num o.lat_lon_alt.lon,
   CsvField.num o.lat_lon_alt.alt, CsvField.num o.heading,
   CsvField.num o.pitch, CsvField.num o.bank, CsvField.num o.position.x,
   CsvField.num o.position.y, CsvField.num o.position.z]

/-- The `dcs::Loggable` trait.  Note: the trait as declared in `src/dcs.rs`
takes only `(frame_count, frame_time, writer)`; the caller in
`src/worker.rs` also passes a `real_time` argument for which the trait has
no parameter, so no wall-time field reaches the record. -/
class Loggable (α : Type) where
  log_as_csv : α → Int → Rat → CsvWriter → CsvWriter

/-- `impl Loggable for DcsWorldObject`: serializes
`(FrameObjectRecord \x7b .., unit_name: "", group_name: "" \x7d, self)`
as one row. -/
instance : Loggable DcsWorldObject where
  log_as_csv o frame_count frame_time writer :=
    { writer with
        rows := writer.rows ++
          [FrameObjectRecord.fields frame_count frame_time "" "" ++
            o.serializeFields] }

/-- `impl Loggable for DcsWorldUnit`: serializes
`(FrameObjectRecord \x7b .., unit_name, group_name \x7d, self.object)`
as one row. -/
instance : Loggable DcsWorldUnit where
  log_as_csv u frame_count frame_time writer :=
    { writer with
        rows := writer.rows ++
          [FrameObjectRecord.fields frame_count frame_time
              u.unit_name u.group_name ++ u.object.serializeFields] }

/-! Persistence logger (`src/worker.rs`). -/

/-- `worker::Message`: the `Arc`-shared snapshot payload of `Update` is
modelled by value since consumers only read it. -/
inductive Message where
  | update (units : List DcsWorldUnit) (ballistics : List DcsWorldObject)
      (game_time : Rat) (real_time : Rat)
  | stop
deriving DecidableEq

/-- `worker::log_dcs_objects`: logs each object in order.  The `real_time`
parameter is accepted (as in the `worker.rs` signature) but the
`dcs::Loggable` trait gives it no parameter, so it does not reach a row. -/
def log_dcs_objects {T : Type} [Loggable T] (frame_count : Int)
    (t : Rat) (real_time : Rat) (writer : CsvWriter) (objects : List T) :
    CsvWriter :=
  let _ := real_time
  objects.foldl (fun w obj => Loggable.log_as_csv obj frame_count t w) writer

/-- `worker::finish` (free function): flush the writer when present.  The
source calls only `writer.flush().unwrap()` and never
`ZstdEncoder::finish`, so the `finalized` flag is left as it was. -/
def finishWriter (obj : Option CsvWriter) : Option CsvWriter :=
  match obj with
  | some writer => some { writer with flushes := writer.flushes + 1 }
  | none => none

/-- `worker::log_frame` (free function): one frame-timing row of
`(n - 1, game_time, real_time, num_units, num_ballistics)`. -/
def log_frame (writer : CsvWriter) (game_time : Rat) (real_time : Rat)
    (n : Int) (num_units : Int) (num_ballistics : Int) : CsvWriter :=
  { writer with
      rows := writer.rows ++
        [[CsvField.int (n - 1), CsvField.num game_time,
          CsvField.num real_time, CsvField.int num_units,
          CsvField.int num_ballistics]] }

/-- `worker::Logger`. -/
structure Logger where
  prev_game_time : Rat
  most_recent_game_time : Rat
  current_real_time : Rat
  frame_count : Int
  frame_writer : Option CsvWriter
  object_writer : Option CsvWriter
deriving DecidableEq

/-- `Logger::new`. -/
def Logger.new (frame_writer object_writer : Option CsvWriter) : Logger :=
  { prev_game_time := 0
    current_real_time := 0
    most_recent_game_time := 0
    frame_count := 0
    frame_writer := frame_writer
    object_writer := object_writer }

/-- `Logger::log_frame`: `.unwrap()`s the frame writer (panic when absent,
modelled as `none`). -/
def Logger.logFrame (l : Logger) (t : Rat) (units : List DcsWorldUnit)
    (ballistics : List DcsWorldObject) : Option Logger :=
  match l.frame_writer with
  | none => none
  | some writer =>
      some { l with
        frame_writer := some (log_frame writer t l.current_real_time
          l.frame_count (units.length : Int) (ballistics.length : Int)) }

/-- `Logger::log_objects`: `.unwrap()`s the object writer (panic when
absent), then logs all units and then all ballistics to it. -/
def Logger.logObjects (l : Logger) (units : List DcsWorldUnit)
    (ballistics : List DcsWorldObject) : Option Logger :=
  match l.object_writer with
  | none => none
  | some writer =>
      let n := l.frame_count
      let t := l.most_recent_game_time
      let writer := log_dcs_objects n t l.current_real_time writer units
      let writer := log_dcs_objects n t l.current_real_time writer ballistics
      some { l with object_writer := some writer }

/-- `Logger::handle_update`: records the times, then writes the frame row
and the object rows, each guarded by presence of its writer.  As in the
source, `frame_count` is not modified. -/
def Logger.handle_update (l : Logger) (units : List DcsWorldUnit)
    (ballistics : List DcsWorldObject) (game_time : Rat)
    (real_time : Rat) : Option Logger := do
  let l := { l with
    prev_game_time := l.most_recent_game_time
    most_recent_game_time := game_time
    current_real_time := real_time }
  let l ←
    if l.frame_writer.isSome then l.logFrame game_time units ballistics
    else some l
  if l.object_writer.isSome then l.logObjects units ballistics
  else some l

/-- `Logger::handle_message`: returns the updated logger and whether the
receive loop is done. -/
def Logger.handle_message (l : Logger) (msg : Message) :
    Option (Logger × Bool) :=
  match msg with
  | .update units ballistics game_time real_time =>
      (l.handle_update units ballistics game_time real_time).map
        fun l2 => (l2, false)
  | .stop => some (l, true)

/-- `Logger::finish`: flush the object writer, then the frame writer. -/
def Logger.finish (l : Logger) : Logger :=
  { l with
      object_writer := finishWriter l.object_writer
      frame_writer := finishWriter l.frame_writer }

/-- The receive loop of `worker::entry`: process messages in arrival order
until `Stop`, then finish.  Exhausting the list without a `Stop` models the
producer dropping the sender, where `rx.recv().expect(..)` panics. -/
def runLoop (l : Logger) : List Message → Option Logger
  | [] => none
  | msg :: rest =>
      match l.handle_message msg with
      | none => none
      | some (l2, done) => if done then some l2.finish else runLoop l2 rest

/-- `config::Config`. -/
structure Config where
  write_dir : String
  lua_path : String
  dll_path : String
  debug : Bool
  enable_object_log : Bool
  enable_framerate_log : Bool
  enable_gui : Bool
  gui_update_interval : Rat
deriving DecidableEq

/-- `worker::entry`: create each writer iff its config flag is set, then run
the receive loop. -/
def entry (config : Config) (msgs : List Message) : Option Logger :=
  let frame_writer :=
    if config.enable_framerate_log then some create_csv_file else none
  let object_writer :=
    if config.enable_object_log then some create_csv_file else none
  runLoop (Logger.new frame_writer object_writer) msgs

/-- Payload of one `Update` message, for stating run-level properties. -/
structure UpdateData where
  units : List DcsWorldUnit
  ballistics : List DcsWorldObject
  game_time : Rat
  real_time : Rat
deriving DecidableEq

/-- The `Update` message carrying the payload. -/
def UpdateData.toMessage (d : UpdateData) : Message :=
  .update d.units d.ballistics d.game_time d.real_time

/-! Producer side (`src/lib.rs`). -/

/-- Outcome of a producer-side call: either the call returns normally to the
host, or it panics with the given message. -/
inductive Outcome where
  | returned : Outcome
  | panicked : String → Outcome
deriving DecidableEq

/-- `std::sync::mpsc::Sender::send`: fails exactly when the receiving end
has been dropped. -/
def mpscSend (receiver_alive : Bool) : Except Unit Unit :=
  if receiver_alive then .ok () else .error ()

/-- `lib::send_worker_message`: `.expect("Should be able to send message")`
on the send result. -/
def send_worker_message (receiver_alive : Bool) : Outcome :=
  match mpscSend receiver_alive with
  | .ok _ => .returned
  | .error _ => .panicked "Should be able to send message"

/-- `lib::send_gui_message`: returns early when the GUI is disabled and
otherwise discards a send failure with `.unwrap_or(())`. -/
def send_gui_message (is_gui_enabled : Bool) (receiver_alive : Bool) :
    Outcome :=
  if !is_gui_enabled then .returned
  else
    match mpscSend receiver_alive with
    | .ok _ => .returned
    | .error _ => .returned

/-- `monitor::Monitor::update` send path: `.unwrap()` on the send result. -/
def monitor_update_send (receiver_alive : Bool) : Outcome :=
  match mpscSend receiver_alive with
  | .ok _ => .returned
  | .error _ => .panicked "called unwrap on an Err value"

/-- Host-visible state read by the producer callback during one tick. -/
structure HostState where
  paused : Bool
  model_time : Rat
  unit_pairs : List (Int × LuaTable)
  ballistic_pairs : List (Int × LuaTable)

/-- Modelled from the spec: `dcs::is_paused` is called by
`lib::on_frame_begin` but is absent from the sources; per the spec the
external collaborator supplies "a pause flag" that the producer queries
each tick, so it returns the host's pause flag. -/
def is_paused (h : HostState) : Bool :=
  h.paused

/-- `lib::on_frame_begin`: when the host reports paused, return before
building or sending anything; otherwise build the snapshot (unwrap-panics
propagate as the outer `none`) and emit the worker `Update` message.  The
inner `Option` is the message given to the worker channel (`none` when the
tick was skipped). -/
def on_frame_begin (h : HostState) (real_time : Rat) :
    Option (Option Message) :=
  if is_paused h then some none
  else do
    let t := h.model_time
    let ballistics ← get_ballistics_objects h.ballistic_pairs
    let units ← get_unit_objects h.unit_pairs
    some (some (.update units ballistics t real_time))

/-- One end-to-end tick: the producer callback runs, and whatever message it
emitted (if any) is delivered to the persistence logger. -/
def tick (h : HostState) (real_time : Rat) (l : Logger) : Option Logger :=
  match on_frame_begin h real_time with
  | none => none
  | some none => some l
  | some (some msg) => (l.handle_message msg).map fun p => p.1

/-! Rolling monitor (`src/monitor.rs`). -/

/-- `log::Level`. -/
inductive Level where
  | error | warn | info | debug | trace
deriving DecidableEq, Repr

/-- `monitor::FrameState`. -/
structure FrameState where
  num_units : Int
  num_ballistics : Int
  real_time : Rat
  game_time : Rat
  lib_time : Rat
  sys_cpu : Int
  sys_wall : Int
  proc_cpu : Int
deriving DecidableEq

/-- `monitor::FrameLog`: each `VecDeque` as a list, `push_back` appending. -/
structure FrameLog where
  num_units : List Int
  num_ballistics : List Int
  real_times : List Rat
  game_times : List Rat
  lib_times : List Rat
  sys_cpu_times : List Int
  sys_wall_times : List Int
  proc_cpu_times : List Int
deriving DecidableEq

/-- `monitor::get_stats` at `i32`: min, max and mean of the series. -/
def getStatsInt (v : List Int) : Option (Int × Int × Rat) :=
  match v.min?, v.max? with
  | some minval, some maxval =>
      some (minval, maxval, ((v.sum : Rat)) / (v.length : Rat))
  | _, _ => none

/-- `monitor::get_stats`/`float_stats` at `OrderedFloat<f64>`. -/
def floatStats (v : List Rat) : Option (Rat × Rat × Rat) :=
  match v.min?, v.max? with
  | some minval, some maxval =>
      some (minval, maxval, v.sum / (v.length : Rat))
  | _, _ => none

/-- `monitor::log_times`: mean ratio of the two series over entries with a
positive total. -/
def log_times_value (series totals : List Int) : Rat :=
  (((series.zip totals).filter fun p => 0 < p.2).map
      fun p => (p.1 : Rat) / (p.2 : Rat)).sum / (series.length : Rat)

/-- One console log statement emitted by the monitor, with its severity. -/
inductive LogEvent where
  | noData
  | statsEmpty (what : String)
  | frameTimes (lvl : Level) (gmin gmax gmean : Rat)
  | realTimes (lvl : Level) (rmin rmax rmean : Rat)
  | avgFps (lvl : Level) (fps : Rat)
  | counts (lvl : Level) (max_units max_ballistics : Int)
  | cpuLoad (lvl : Level) (what : String) (value : Rat)
  | libTimes (lvl : Level) (lmin lmax lmean : Rat)
  | ruleLine (lvl : Level)
deriving DecidableEq

/-- Severity a `LogEvent` is emitted at: the `no data` report is a
`log::warn!`, empty-stats reports are `log::error!`, the rest carry the
level chosen from the frame times. -/
def LogEvent.level : LogEvent → Level
  | .noData => .warn
  | .statsEmpty _ => .error
  | .frameTimes lvl _ _ _ => lvl
  | .realTimes lvl _ _ _ => lvl
  | .avgFps lvl _ => lvl
  | .counts lvl _ _ => lvl
  | .cpuLoad lvl _ _ => lvl
  | .libTimes lvl _ _ _ => lvl
  | .ruleLine lvl => lvl

/-- Severities of a report, in emission order. -/
def levelsOf (events : List LogEvent) : List Level :=
  events.map LogEvent.level

/-- `FrameLog::update`: push one frame's deltas and counts. -/
def FrameLog.update (fl : FrameLog) (state : FrameState)
    (last_game_time last_real_time : Rat) : FrameLog :=
  { num_units := fl.num_units ++ [state.num_units]
    num_ballistics := fl.num_ballistics ++ [state.num_ballistics]
    real_times := fl.real_times ++ [state.real_time - last_real_time]
    game_times := fl.game_times ++ [state.game_time - last_game_time]
    lib_times := fl.lib_times ++ [state.lib_time]
    sys_cpu_times := fl.sys_cpu_times ++ [state.sys_cpu]
    sys_wall_times := fl.sys_wall_times ++ [state.sys_wall]
    proc_cpu_times := fl.proc_cpu_times ++ [state.proc_cpu] }

/-- `FrameLog::reset`. -/
def FrameLog.reset : FrameLog :=
  { num_units := []
    num_ballistics := []
    real_times := []
    game_times := []
    lib_times := []
    sys_cpu_times := []
    sys_wall_times := []
    proc_cpu_times := [] }

/-- `FrameLog::is_empty`. -/
def FrameLog.is_empty (fl : FrameLog) : Bool :=
  fl.game_times.length = 0

/-- `FrameLog::log_to_console`: the report emitted for the current window,
as the list of log statements in order.  The severity escalates to `warn`
when the minimum game-time delta is not below `0.1` (modelled `1/10`). -/
def FrameLog.log_to_console (fl : FrameLog) : List LogEvent :=
  if fl.is_empty then [.noData]
  else
    match getStatsInt fl.num_units with
    | none => [.statsEmpty "Units"]
    | some (_, max_units, _) =>
      match getStatsInt fl.num_ballistics with
      | none => [.statsEmpty "Ballistics"]
      | some (_, max_ballistics, _) =>
        match floatStats fl.game_times with
        | none => [.statsEmpty "Real times"]
        | some (g_min, g_max, g_mean) =>
          let lvl := if g_min < 1/10 then Level.info else Level.warn
          let head := [LogEvent.frameTimes lvl g_min g_max g_mean]
          match floatStats fl.real_times with
          | none => head ++ [.statsEmpty "Real times"]
          | some (r_min, r_max, r_mean) =>
            let middle := head ++
              [LogEvent.realTimes lvl r_min r_max r_mean,
               LogEvent.avgFps lvl (1 / g_mean),
               LogEvent.counts lvl max_units max_ballistics,
               LogEvent.cpuLoad lvl "DCS CPU load"
                 (log_times_value fl.proc_cpu_times fl.sys_wall_times),
               LogEvent.cpuLoad lvl "Total CPU load"
                 (log_times_value fl.sys_cpu_times fl.sys_wall_times)]
            match floatStats fl.lib_times with
            | none => middle ++ [.statsEmpty "Lib times"]
            | some (l_min, l_max, l_mean) =>
              middle ++ [LogEvent.libTimes lvl l_min l_max l_mean,
                LogEvent.ruleLine lvl]

/-- `monitor::MonitorImpl`. -/
structure MonitorImpl where
  frame_log : FrameLog
  last_game_time : Rat
  last_real_time : Rat
  last_logged_time : Rat
  frame_count : Int
  last_logged_frame : Int
deriving DecidableEq

/-- `MonitorImpl::default()`. -/
def MonitorImpl.start : MonitorImpl :=
  { frame_log := FrameLog.reset
    last_game_time := 0
    last_real_time := 0
    last_logged_time := 0
    frame_count := 0
    last_logged_frame := 0 }

/-- `MonitorImpl::update_log`: push the frame into the window; when five
simulated seconds have passed since the last report, emit the report and
reset the window.  Returns the new state and the statements emitted. -/
def MonitorImpl.update_log (m : MonitorImpl) (state : FrameState) :
    MonitorImpl × List LogEvent :=
  let fl := m.frame_log.update state m.last_game_time m.last_real_time
  if 5 ≤ state.game_time - m.last_logged_time then
    ({ frame_log := FrameLog.reset
       last_game_time := state.game_time
       last_real_time := state.real_time
       last_logged_time := state.game_time
       frame_count := m.frame_count + 1
       last_logged_frame := m.frame_count }, fl.log_to_console)
  else
    ({ frame_log := fl
       last_game_time := state.game_time
       last_real_time := state.real_time
       last_logged_time := m.last_logged_time
       frame_count := m.frame_count + 1
       last_logged_frame := m.last_logged_frame }, [])

/-- The receive loop of `MonitorImpl::entry`: output is produced only in
response to received `FrameUpdate` messages; when the channel closes the
loop breaks with no further output. -/
def MonitorImpl.run (m : MonitorImpl) :
    List FrameState → MonitorImpl × List LogEvent
  | [] => (m, [])
  | state :: rest =>
      let step := m.update_log state
      let tail := step.1.run rest
      (tail.1, step.2 ++ tail.2)

/-! What the specification text says about the object-stream row layout,
stated as a definition of its own so that it can be compared with the row
the source actually produces. -/

/-- Row layout claimed by the spec for the object file:
`(frame_number, sim_time, wall_time, unit_name_or_empty,
group_name_or_empty, object_name, country, coalition_label, coalition_id,
lat, lon, alt, heading, pitch, bank, x, y, z)`. -/
def claimedObjectRow (frame_number : Int) (sim_time wall_time : Rat)
    (unit_name group_name : String) (o : DcsWorldObject) : CsvRow :=
  [CsvField.int frame_number, CsvField.num sim_time,
   CsvField.num wall_time, CsvField.str unit_name,
   CsvField.str group_name, CsvField.str o.name, CsvField.int o.country,
   CsvField.str o.coalition, CsvField.int o.coalition_id,
   CsvField.num o.lat_lon_alt.lat, CsvField.num o.lat_lon_alt.lon,
   CsvField.num o.lat_lon_alt.alt, CsvField.num o.heading,
   CsvField.num o.pitch, CsvField.num o.bank, CsvField.num o.position.x,
   CsvField.num o.position.y, CsvField.num o.position.z]

/-! Concrete sample data for counterexamples and witnesses. -/

/-- A host record carrying every field `DcsWorldObject` requires, and no
`UnitName`/`GroupName`. -/
def sampleObjTable : LuaTable :=
  [("Name", .str "Truck"), ("Country", .num 1), ("Coalition", .str "red"),
   ("CoalitionID", .num 2),
   ("LatLongAlt",
     .table [("Lat", .num 10), ("Long", .num 20), ("Alt", .num 100)]),
   ("Position", .table [("x", .num 1), ("y", .num 2), ("z", .num 3)]),
   ("Heading", .num (1/4)), ("Pitch", .num 0), ("Bank", .num 0)]

/-- A malformed host record: the required `LatLongAlt` structure (and every
other object field) is missing. -/
def badUnitTable : LuaTable :=
  [("UnitName", .str "Bad")]

/-- A fully well-formed unit record. -/
def goodUnitTable : LuaTable :=
  sampleObjTable ++ [("UnitName", .str "Good"), ("GroupName", .str "G")]

/-- A sample entity value for row-layout statements. -/
def sampleObject : DcsWorldObject :=
  { id := 7
    name := "Shell"
    country := 1
    coalition := "red"
    coalition_id := 2
    lat_lon_alt := { lat := 1, lon := 2, alt := 3 }
    heading := 4
    pitch := 5
    bank := 6
    position := { x := 11, y := 12, z := 13 } }

/-- A sample unit value wrapping `sampleObject`. -/
def sampleUnit : DcsWorldUnit :=
  { object := sampleObject, unit_name := "U", group_name := "G" }

/-- A monitor window holding one fast frame (50 ms) and one slow frame
(200 ms): a frame time above the 100 ms stall threshold was observed. -/
def mixedWindow : FrameLog :=
  { num_units := [1, 1]
    num_ballistics := [0, 0]
    real_times := [1/20, 1/5]
    game_times := [1/20, 1/5]
    lib_times := [0, 0]
    sys_cpu_times := [1, 1]
    sys_wall_times := [1, 1]
    proc_cpu_times := [1, 1] }

/-- A monitor window in which every frame took at least 100 ms. -/
def slowWindow : FrameLog :=
  { num_units := [2]
    num_ballistics := [3]
    real_times := [1/5]
    game_times := [1/5]
    lib_times := [0]
    sys_cpu_times := [1]
    sys_wall_times := [1]
    proc_cpu_times := [1] }

/-- A session configuration with both persisted logs enabled. -/
def bothLogsConfig : Config :=
  { write_dir := "C:/dcs"
    lua_path := ""
    dll_path := ""
    debug := false
    enable_object_log := true
    enable_framerate_log := true
    enable_gui := false
    gui_update_interval := -1 }

/-- A tick on which the host reports the paused state. -/
def pausedHost : HostState :=
  { paused := true
    model_time := 42
    unit_pairs := [(1, goodUnitTable)]
    ballistic_pairs := [] }

/-- Two concrete update payloads. -/
def updateA : UpdateData :=
  { units := [sampleUnit], ballistics := [], game_time := 1/2,
    real_time := 9/4 }

/-- A second concrete update payload. -/
def updateB : UpdateData :=
  { units := [], ballistics := [sampleObject], game_time := 3/4,
    real_time := 5/2 }

/-! Proof-side helper definitions. -/

/-- Total form of `Logger::handle_update` (the guarded branches make the
`.unwrap()`s safe, so the update is a function of the state). -/
def stepUpdate (l : Logger) (d : UpdateData) : Logger :=
  { prev_game_time := l.most_recent_game_time
    most_recent_game_time := d.game_time
    current_real_time := d.real_time
    frame_count := l.frame_count
    frame_writer := l.frame_writer.map fun w =>
      log_frame w d.game_time d.real_time l.frame_count
        (d.units.length : Int) (d.ballistics.length : Int)
    object_writer := l.object_writer.map fun w =>
      log_dcs_objects l.frame_count d.game_time d.real_time
        (log_dcs_objects l.frame_count d.game_time d.real_time w d.units)
        d.ballistics }

/-- The frame-timing rows a list of updates produces at a fixed counter
value `n`. -/
def frameRowsAt (n : Int) (updates : List UpdateData) : List CsvRow :=
  updates.map fun d =>
    [CsvField.int (n - 1), CsvField.num d.game_time,
     CsvField.num d.real_time, CsvField.int (d.units.length : Int),
     CsvField.int (d.ballistics.length : Int)]

/-! Helper lemmas about the persistence logger. -/

/-- The guarded branches of `handle_update` make both `.unwrap()`s safe, so
the handler equals its total form. -/
theorem handle_update_eq (l : Logger) (d : UpdateData) :
    l.handle_update d.units d.ballistics d.game_time d.real_time =
      some (stepUpdate l d) := by
  cases hf : l.frame_writer <;> cases ho : l.object_writer <;>
    simp [Logger.handle_update, Logger.logFrame, Logger.logObjects,
      stepUpdate, hf, ho]

/-- The receive loop over a list of updates followed by `Stop` folds the
updates into the state, finishes, and ignores everything after `Stop`. -/
theorem runLoop_updates_stop (l : Logger) (us : List UpdateData)
    (rest : List Message) :
    runLoop l (us.map UpdateData.toMessage ++ (Message.stop :: rest)) =
      some ((us.foldl stepUpdate l).finish) := by
  induction us generalizing l with
  | nil => simp [runLoop, Logger.handle_message]
  | cons d us ih =>
      simp only [List.map_cons, List.cons_append, runLoop,
        UpdateData.toMessage, Logger.handle_message, handle_update_eq,
        Option.map_some, List.foldl_cons]
      exact ih (stepUpdate l d)

/-- Updates never change the frame counter. -/
theorem foldl_stepUpdate_frame_count (us : List UpdateData) (l : Logger) :
    (us.foldl stepUpdate l).frame_count = l.frame_count := by
  induction us generalizing l with
  | nil => rfl
  | cons d us ih => rw [List.foldl_cons, ih]; rfl

/-- An absent frame writer stays absent across updates. -/
theorem foldl_stepUpdate_frame_writer_none (us : List UpdateData)
    (l : Logger) (h : l.frame_writer = none) :
    (us.foldl stepUpdate l).frame_writer = none := by
  induction us generalizing l with
  | nil => exact h
  | cons d us ih =>
      rw [List.foldl_cons]
      exact ih _ (by simp [stepUpdate, h])

/-- A present frame writer accumulates exactly one frame-timing row per
update, every row stamped with the (never-changing) counter value. -/
theorem foldl_stepUpdate_frame_writer_some (us : List UpdateData)
    (l : Logger) (w : CsvWriter) (h : l.frame_writer = some w) :
    (us.foldl stepUpdate l).frame_writer =
      some { rows := w.rows ++ frameRowsAt l.frame_count us
             flushes := w.flushes
             finalized := w.finalized } := by
  induction us generalizing l w with
  | nil => simpa [frameRowsAt] using h
  | cons d us ih =>
      rw [List.foldl_cons]
      have hstep : (stepUpdate l d).frame_writer =
          some (log_frame w d.game_time d.real_time l.frame_count
            (d.units.length : Int) (d.ballistics.length : Int)) := by
        simp [stepUpdate, h]
      rw [ih _ _ hstep]
      simp [stepUpdate, log_frame, frameRowsAt, List.append_assoc]

/-- Logging a batch of objects never flushes the writer. -/
theorem log_dcs_objects_units_flushes (n : Int) (t rt : Rat)
    (w : CsvWriter) (objects : List DcsWorldUnit) :
    (log_dcs_objects n t rt w objects).flushes = w.flushes := by
  induction objects generalizing w with
  | nil => rfl
  | cons o os ih =>
      rw [log_dcs_objects] at *
      simpa [Loggable.log_as_csv] using ih _

/-- Logging a batch of ballistic objects never flushes the writer. -/
theorem log_dcs_objects_ballistics_flushes (n : Int) (t rt : Rat)
    (w : CsvWriter) (objects : List DcsWorldObject) :
    (log_dcs_objects n t rt w objects).flushes = w.flushes := by
  induction objects generalizing w with
  | nil => rfl
  | cons o os ih =>
      rw [log_dcs_objects] at *
      simpa [Loggable.log_as_csv] using ih _

/-- Logging a batch of objects never finalizes the writer's stream. -/
theorem log_dcs_objects_units_finalized (n : Int) (t rt : Rat)
    (w : CsvWriter) (objects : List DcsWorldUnit) :
    (log_dcs_objects n t rt w objects).finalized = w.finalized := by
  induction objects generalizing w with
  | nil => rfl
  | cons o os ih =>
      rw [log_dcs_objects] at *
      simpa [Loggable.log_as_csv] using ih _

/-- Logging a batch of ballistic objects never finalizes the writer's
stream. -/
theorem log_dcs_objects_ballistics_finalized (n : Int) (t rt : Rat)
    (w : CsvWriter) (objects : List DcsWorldObject) :
    (log_dcs_objects n t rt w objects).finalized = w.finalized := by
  induction objects generalizing w with
  | nil => rfl
  | cons o os ih =>
      rw [log_dcs_objects] at *
      simpa [Loggable.log_as_csv] using ih _

/-- Updates preserve presence and finalization state of the frame
writer. -/
theorem foldl_stepUpdate_frame_writer_finalized (us : List UpdateData)
    (l : Logger) :
    (us.foldl stepUpdate l).frame_writer.map CsvWriter.finalized =
      l.frame_writer.map CsvWriter.finalized := by
  induction us generalizing l with
  | nil => rfl
  | cons d us ih =>
      rw [List.foldl_cons, ih]
      cases h : l.frame_writer <;> simp [stepUpdate, log_frame, h]

/-- Updates preserve presence and finalization state of the object
writer. -/
theorem foldl_stepUpdate_object_writer_finalized (us : List UpdateData)
    (l : Logger) :
    (us.foldl stepUpdate l).object_writer.map CsvWriter.finalized =
      l.object_writer.map CsvWriter.finalized := by
  induction us generalizing l with
  | nil => rfl
  | cons d us ih =>
      rw [List.foldl_cons, ih]
      cases h : l.object_writer <;>
        simp [stepUpdate, h, log_dcs_objects_units_finalized,
          log_dcs_objects_ballistics_finalized]

/-- Updates preserve presence and flush count of the frame writer. -/
theorem foldl_stepUpdate_frame_writer_flushes (us : List UpdateData)
    (l : Logger) :
    (us.foldl stepUpdate l).frame_writer.map CsvWriter.flushes =
      l.frame_writer.map CsvWriter.flushes := by
  induction us generalizing l with
  | nil => rfl
  | cons d us ih =>
      rw [List.foldl_cons, ih]
      cases h : l.frame_writer <;> simp [stepUpdate, log_frame, h]

/-- Updates preserve presence and flush count of the object writer. -/
theorem foldl_stepUpdate_object_writer_flushes (us : List UpdateData)
    (l : Logger) :
    (us.foldl stepUpdate l).object_writer.map CsvWriter.flushes =
      l.object_writer.map CsvWriter.flushes := by
  induction us generalizing l with
  | nil => rfl
  | cons d us ih =>
      rw [List.foldl_cons, ih]
      cases h : l.object_writer <;>
        simp [stepUpdate, h, log_dcs_objects_units_flushes,
          log_dcs_objects_ballistics_flushes]

/-- C1: for a run of N `Update` messages followed by `Stop` with the
frame-timing log enabled, the frame-timing file holds exactly N rows — but
the `frame_number` field of every row is the constant `-1`, because
`Logger::frame_count` is never incremented, so the numbers do not advance
by 1 per tick as the claim states. -/
theorem frame_rows_exact_count_constant_number (config : Config)
    (hframe : config.enable_framerate_log = true)
    (updates : List UpdateData) :
    ∃ lf w,
      entry config (updates.map UpdateData.toMessage ++ [Message.stop]) =
        some lf ∧
      lf.frame_writer = some w ∧
      w.rows.length = updates.length ∧
      (∀ row ∈ w.rows, row.head? = some (CsvField.int (-1))) ∧
      lf.frame_count = 0 := by
  unfold entry
  rw [hframe, if_pos rfl, runLoop_updates_stop]
  set init : Logger :=
    Logger.new (some create_csv_file)
      (if config.enable_object_log then some create_csv_file else none)
    with hinit
  have hfw : init.frame_writer = some create_csv_file := rfl
  have hfold := foldl_stepUpdate_frame_writer_some updates init
    create_csv_file hfw
  have hcount : init.frame_count = 0 := rfl
  refine ⟨(updates.foldl stepUpdate init).finish,
    { rows := frameRowsAt 0 updates, flushes := 1, finalized := false },
    rfl, ?_, ?_, ?_, ?_⟩
  · show (finishWriter (updates.foldl stepUpdate init).frame_writer) = _
    rw [hfold, hcount]
    simp [finishWriter, create_csv_file]
  · simp [frameRowsAt]
  · intro row hrow
    simp only [frameRowsAt, List.mem_map] at hrow
    obtain ⟨d, _, rfl⟩ := hrow
    norm_num
  · show (updates.foldl stepUpdate init).frame_count = 0
    rw [foldl_stepUpdate_frame_count, hcount]

/-- Witness for C1 at a concrete run: two updates, frame log enabled. -/
theorem frame_rows_exact_count_constant_number_witness :
    ∃ lf w,
      entry bothLogsConfig
        ([updateA, updateB].map UpdateData.toMessage ++ [Message.stop]) =
        some lf ∧
      lf.frame_writer = some w ∧
      w.rows.length = [updateA, updateB].length ∧
      (∀ row ∈ w.rows, row.head? = some (CsvField.int (-1))) ∧
      lf.frame_count = 0 :=
  frame_rows_exact_count_constant_number bothLogsConfig rfl
    [updateA, updateB]

/-- C3: on receipt of `Stop` the logger terminates its receive loop,
processes no later message, and flushes each writer that is present
exactly once — but neither compressed stream is ever finalized:
`worker::finish` only calls `flush`, and no code path invokes the zstd
encoder's `finish`, so both present writers end the session with
`finalized = false` and their zstd frames are left unterminated, against
the claim's explicit finalization requirement. -/
theorem stop_flushes_but_never_finalizes (config : Config)
    (updates : List UpdateData) (rest : List Message) :
    entry config
        (updates.map UpdateData.toMessage ++ (Message.stop :: rest)) =
      entry config (updates.map UpdateData.toMessage ++ [Message.stop]) ∧
    ∃ lf,
      entry config (updates.map UpdateData.toMessage ++ [Message.stop]) =
        some lf ∧
      lf.frame_writer.map CsvWriter.flushes =
        (if config.enable_framerate_log then some 1 else none) ∧
      lf.object_writer.map CsvWriter.flushes =
        (if config.enable_object_log then some 1 else none) ∧
      lf.frame_writer.map CsvWriter.finalized =
        (if config.enable_framerate_log then some false else none) ∧
      lf.object_writer.map CsvWriter.finalized =
        (if config.enable_object_log then some false else none) := by
  unfold entry
  rw [runLoop_updates_stop, runLoop_updates_stop]
  set init : Logger :=
    Logger.new
      (if config.enable_framerate_log then some create_csv_file else none)
      (if config.enable_object_log then some create_csv_file else none)
    with hinit
  refine ⟨rfl, (updates.foldl stepUpdate init).finish, rfl, ?_, ?_, ?_, ?_⟩
  · show (finishWriter (updates.foldl stepUpdate init).frame_writer).map
      CsvWriter.flushes = _
    have hfl := foldl_stepUpdate_frame_writer_flushes updates init
    cases hw : (updates.foldl stepUpdate init).frame_writer with
    | none =>
        rw [hw] at hfl
        by_cases hc : config.enable_framerate_log <;>
          simp [hinit, Logger.new, hc, create_csv_file, finishWriter, hw] at hfl ⊢
    | some w =>
        rw [hw] at hfl
        by_cases hc : config.enable_framerate_log <;>
          simp [hinit, Logger.new, hc, create_csv_file, finishWriter, hw] at hfl ⊢
        omega
  · show (finishWriter (updates.foldl stepUpdate init).object_writer).map
      CsvWriter.flushes = _
    have hfl := foldl_stepUpdate_object_writer_flushes updates init
    cases hw : (updates.foldl stepUpdate init).object_writer with
    | none =>
        rw [hw] at hfl
        by_cases hc : config.enable_object_log <;>
          simp [hinit, Logger.new, hc, create_csv_file, finishWriter, hw] at hfl ⊢
    | some w =>
        rw [hw] at hfl
        by_cases hc : config.enable_object_log <;>
          simp [hinit, Logger.new, hc, create_csv_file, finishWriter, hw] at hfl ⊢
        omega
  · show (finishWriter (updates.foldl stepUpdate init).frame_writer).map
      CsvWriter.finalized = _
    have hfin := foldl_stepUpdate_frame_writer_finalized updates init
    cases hw : (updates.foldl stepUpdate init).frame_writer with
    | none =>
        rw [hw] at hfin
        by_cases hc : config.enable_framerate_log <;>
          simp [hinit, Logger.new, hc, create_csv_file, finishWriter, hw]
            at hfin ⊢
    | some w =>
        rw [hw] at hfin
        by_cases hc : config.enable_framerate_log <;>
          simp [hinit, Logger.new, hc, create_csv_file, finishWriter, hw]
            at hfin ⊢
        exact hfin
  · show (finishWriter (updates.foldl stepUpdate init).object_writer).map
      CsvWriter.finalized = _
    have hfin := foldl_stepUpdate_object_writer_finalized updates init
    cases hw : (updates.foldl stepUpdate init).object_writer with
    | none =>
        rw [hw] at hfin
        by_cases hc : config.enable_object_log <;>
          simp [hinit, Logger.new, hc, create_csv_file, finishWriter, hw]
            at hfin ⊢
    | some w =>
        rw [hw] at hfin
        by_cases hc : config.enable_object_log <;>
          simp [hinit, Logger.new, hc, create_csv_file, finishWriter, hw]
            at hfin ⊢
        exact hfin

/-- C10: `handle_update` guards each write by presence of the writer, so it
never panics, and a sink that is absent (disabled by configuration) stays
absent and receives no write. -/
theorem handle_update_total_and_respects_disabled_sinks (l : Logger)
    (units : List DcsWorldUnit) (ballistics : List DcsWorldObject)
    (game_time real_time : Rat) :
    ∃ l2,
      l.handle_update units ballistics game_time real_time = some l2 ∧
      (l.frame_writer = none → l2.frame_writer = none) ∧
      (l.object_writer = none → l2.object_writer = none) ∧
      l2.frame_writer.isSome = l.frame_writer.isSome ∧
      l2.object_writer.isSome = l.object_writer.isSome := by
  refine ⟨stepUpdate l
      { units := units, ballistics := ballistics,
        game_time := game_time, real_time := real_time },
    handle_update_eq l
      { units := units, ballistics := ballistics,
        game_time := game_time, real_time := real_time },
    ?_, ?_, ?_, ?_⟩ <;>
    cases hf : l.frame_writer <;> cases ho : l.object_writer <;>
      simp [stepUpdate, hf, ho]

/-- Witness for C10 at a concrete logger with both sinks disabled. -/
theorem handle_update_total_witness :
    ∃ l2,
      (Logger.new none none).handle_update [] [] 0 0 = some l2 ∧
      ((Logger.new none none).frame_writer = none →
        l2.frame_writer = none) ∧
      ((Logger.new none none).object_writer = none →
        l2.object_writer = none) ∧
      l2.frame_writer.isSome = (Logger.new none none).frame_writer.isSome ∧
      l2.object_writer.isSome =
        (Logger.new none none).object_writer.isSome :=
  handle_update_total_and_respects_disabled_sinks (Logger.new none none)
    [] [] 0 0

/-- C2 counterexample: with the worker's receiving end dropped, the
producer-side `send_worker_message` does not return normally — its
`.expect(..)` panics, so the send does not degrade to a no-op. -/
theorem send_worker_message_panics_when_receiver_dropped :
    send_worker_message false =
      Outcome.panicked "Should be able to send message" := by
  rfl

/-- C2 amended: only the GUI channel send degrades to a no-op when its
receiver is gone; the worker-channel send and the monitor-channel send
panic in that situation (and return normally while the receiver lives). -/
theorem channel_send_degradation :
    (∀ is_gui_enabled : Bool,
      send_gui_message is_gui_enabled false = Outcome.returned) ∧
    send_worker_message false =
      Outcome.panicked "Should be able to send message" ∧
    monitor_update_send false =
      Outcome.panicked "called unwrap on an Err value" ∧
    send_worker_message true = Outcome.returned ∧
    monitor_update_send true = Outcome.returned := by
  refine ⟨fun b => ?_, rfl, rfl, rfl, rfl⟩
  cases b <;> rfl

/-- C4 counterexample: a frame holding a malformed first entity and a
well-formed second entity does not yield the well-formed remainder — the
`.unwrap()` in `get_unit_objects` panics and the whole frame is lost,
so the remaining entities of the frame are not processed. -/
theorem malformed_entity_aborts_frame_cex :
    (DcsWorldUnit.from_lua_with_id 2 goodUnitTable).isSome = true ∧
    get_unit_objects [(1, badUnitTable), (2, goodUnitTable)] = none := by
  exact ⟨rfl, rfl⟩

/-- C4 amended: one malformed entity record in a frame panics snapshot
construction for the whole frame — entities are not skipped
individually. -/
theorem malformed_entity_aborts_frame (pairs : List (Int × LuaTable))
    (k : Int) (t : LuaTable) (hmem : (k, t) ∈ pairs)
    (hbad : DcsWorldUnit.from_lua_with_id k t = none) :
    get_unit_objects pairs = none := by
  induction pairs with
  | nil => cases hmem
  | cons p rest ih =>
      obtain ⟨a, b⟩ := p
      rcases List.mem_cons.mp hmem with heq | hmem2
      · have h1 : DcsWorldUnit.from_lua_with_id a b = none := by
          rw [show a = k from (Prod.mk.injEq ..).mp heq.symm |>.1,
            show b = t from (Prod.mk.injEq ..).mp heq.symm |>.2]
          exact hbad
        simp [get_unit_objects, h1]
      · cases hh : DcsWorldUnit.from_lua_with_id a b with
        | none => simp [get_unit_objects, hh]
        | some u => simp [get_unit_objects, hh, ih hmem2]

/-- Witness for C4 amended: a single malformed entity loses its frame. -/
theorem malformed_entity_aborts_frame_witness :
    get_unit_objects [(1, badUnitTable)] = none :=
  malformed_entity_aborts_frame [(1, badUnitTable)] 1 badUnitTable
    (by simp) rfl

/-- C5 counterexample: the row written for a unit is not the row the claim
describes — there is no wall-time field (the third written field is the
unit name) and the object id is written between the group name and the
object name. -/
theorem object_row_layout_cex :
    (Loggable.log_as_csv sampleUnit 3 (1/2) create_csv_file).rows ≠
      [claimedObjectRow 3 (1/2) (9/4) sampleUnit.unit_name
        sampleUnit.group_name sampleUnit.object] ∧
    (Loggable.log_as_csv sampleUnit 3 (1/2) create_csv_file).rows =
      [[CsvField.int 3, CsvField.num (1/2), CsvField.str "U",
        CsvField.str "G", CsvField.int 7, CsvField.str "Shell",
        CsvField.int 1, CsvField.str "red", CsvField.int 2,
        CsvField.num 1, CsvField.num 2, CsvField.num 3, CsvField.num 4,
        CsvField.num 5, CsvField.num 6, CsvField.num 11,
        CsvField.num 12, CsvField.num 13]] := by
  constructor
  · intro hrows
    simp [Loggable.log_as_csv, create_csv_file, claimedObjectRow,
      FrameObjectRecord.fields, DcsWorldObject.serializeFields,
      sampleUnit, sampleObject] at hrows
  · rfl

/-- C5 amended: every object-stream row is exactly
`(frame_number, sim_time, unit_name_or_empty, group_name_or_empty,
object_id, object_name, country, coalition_label, coalition_id, lat, lon,
alt, heading, pitch, bank, x, y, z)` in that order, the unit and group
names empty for ballistic objects; no wall-time field is written. -/
theorem object_row_layout (frame_count : Int) (frame_time : Rat)
    (w : CsvWriter) (u : DcsWorldUnit) (o : DcsWorldObject) :
    (Loggable.log_as_csv u frame_count frame_time w).rows =
      w.rows ++
        [[CsvField.int frame_count, CsvField.num frame_time,
          CsvField.str u.unit_name, CsvField.str u.group_name,
          CsvField.int u.object.id, CsvField.str u.object.name,
          CsvField.int u.object.country, CsvField.str u.object.coalition,
          CsvField.int u.object.coalition_id,
          CsvField.num u.object.lat_lon_alt.lat,
          CsvField.num u.object.lat_lon_alt.lon,
          CsvField.num u.object.lat_lon_alt.alt,
          CsvField.num u.object.heading, CsvField.num u.object.pitch,
          CsvField.num u.object.bank, CsvField.num u.object.position.x,
          CsvField.num u.object.position.y,
          CsvField.num u.object.position.z]] ∧
    (Loggable.log_as_csv o frame_count frame_time w).rows =
      w.rows ++
        [[CsvField.int frame_count, CsvField.num frame_time,
          CsvField.str "", CsvField.str "", CsvField.int o.id,
          CsvField.str o.name, CsvField.int o.country,
          CsvField.str o.coalition, CsvField.int o.coalition_id,
          CsvField.num o.lat_lon_alt.lat, CsvField.num o.lat_lon_alt.lon,
          CsvField.num o.lat_lon_alt.alt, CsvField.num o.heading,
          CsvField.num o.pitch, CsvField.num o.bank,
          CsvField.num o.position.x, CsvField.num o.position.y,
          CsvField.num o.position.z]] := by
  exact ⟨rfl, rfl⟩

/-- C6: on a tick where the host reports paused, the producer callback
returns before building a snapshot or sending any message, and the
persistence logger's state — frame counter and written rows included — is
untouched for that tick. -/
theorem paused_tick_emits_nothing (h : HostState) (real_time : Rat)
    (l : Logger) (hp : is_paused h = true) :
    on_frame_begin h real_time = some none ∧
    tick h real_time l = some l := by
  constructor <;> simp [on_frame_begin, tick, hp]

/-- Witness for C6 at a concrete paused tick. -/
theorem paused_tick_emits_nothing_witness :
    on_frame_begin pausedHost (7/2) = some none ∧
    tick pausedHost (7/2) (Logger.new none none) =
      some (Logger.new none none) :=
  paused_tick_emits_nothing pausedHost (7/2) (Logger.new none none) rfl

/-- C9: a unit record that lacks `UnitName` and `GroupName` but carries all
required object fields still constructs, with the `"NoName"` sentinel for
both names, and the frame containing it is not dropped. -/
theorem missing_unit_name_defaults (id : Int) (t : LuaTable)
    (hobj : (DcsWorldObject.from_lua_with_id id t).isSome = true)
    (hu : tableGet t "UnitName" = LuaValue.nil)
    (hg : tableGet t "GroupName" = LuaValue.nil) :
    ∃ u, DcsWorldUnit.from_lua_with_id id t = some u ∧
      u.unit_name = "NoName" ∧ u.group_name = "NoName" ∧
      get_unit_objects [(id, t)] = some [u] := by
  obtain ⟨obj, hobj2⟩ := Option.isSome_iff_exists.mp hobj
  refine ⟨{ object := obj, unit_name := "NoName", group_name := "NoName" },
    ?_, rfl, rfl, ?_⟩
  · simp [DcsWorldUnit.from_lua_with_id, tableGetStr, hu, hg, hobj2]
  · simp [get_unit_objects, List.mapM_cons, DcsWorldUnit.from_lua_with_id,
      tableGetStr, hu, hg, hobj2]

/-- Witness for C9 at a concrete record with no name fields. -/
theorem missing_unit_name_defaults_witness :
    ∃ u, DcsWorldUnit.from_lua_with_id 5 sampleObjTable = some u ∧
      u.unit_name = "NoName" ∧ u.group_name = "NoName" ∧
      get_unit_objects [(5, sampleObjTable)] = some [u] :=
  missing_unit_name_defaults 5 sampleObjTable rfl rfl rfl

/-! Helper lemmas about the rolling monitor. -/

/-- A window that just absorbed a frame is never empty. -/
theorem update_window_not_empty (fl : FrameLog) (s : FrameState)
    (a b : Rat) : (fl.update s a b).is_empty = false := by
  simp [FrameLog.update, FrameLog.is_empty]

/-- A report over a non-empty window never contains the no-data line. -/
theorem noData_not_in_report (fl : FrameLog) (h : fl.is_empty = false) :
    LogEvent.noData ∉ fl.log_to_console := by
  intro hmem
  simp only [FrameLog.log_to_console, h, Bool.false_eq_true, if_false]
    at hmem
  repeat' split at hmem
  all_goals simp_all

/-- The monitor loop never emits the no-data line: every report it emits is
triggered by `update_log` immediately after a frame was pushed into the
window. -/
theorem run_never_emits_noData (m : MonitorImpl)
    (states : List FrameState) :
    LogEvent.noData ∉ (m.run states).2 := by
  induction states generalizing m with
  | nil => simp [MonitorImpl.run]
  | cons s rest ih =>
      simp only [MonitorImpl.run, List.mem_append]
      rintro (hstep | htail)
      · by_cases hf : (5 ≤ s.game_time - m.last_logged_time)
        · simp only [MonitorImpl.update_log, hf, if_true] at hstep
          exact noData_not_in_report _
            (update_window_not_empty m.frame_log s m.last_game_time
              m.last_real_time) hstep
        · simp [MonitorImpl.update_log, hf] at hstep
      · exact ih _ htail

/-- The value of `l.min?` is a member of `l` and a lower bound of `l`. -/
theorem rat_min?_spec (l : List Rat) (a : Rat) (h : l.min? = some a) :
    a ∈ l ∧ ∀ b ∈ l, a ≤ b := by
  constructor
  · exact List.min?_mem (fun x y => min_choice x y) h
  · exact (List.le_min?_iff (fun x y z => le_min_iff) h).1 (le_refl a)

/-- C7: if no `Update` reaches the Rolling Monitor, it emits nothing at
all — in particular not the distinct no-data report, whose emitting branch
is unreachable because every report is computed over a window into which a
frame was just pushed. -/
theorem no_data_report_never_emitted :
    (∀ (m : MonitorImpl) (states : List FrameState),
      LogEvent.noData ∉ (m.run states).2) ∧
    (MonitorImpl.start.run []).2 = [] :=
  ⟨run_never_emits_noData, rfl⟩

/-- Non-empty integer series have statistics. -/
theorem getStatsInt_some (v : List Int) (h : v ≠ []) :
    ∃ out, getStatsInt v = some out := by
  cases hmin : v.min? with
  | none => exact absurd (List.min?_eq_none_iff.mp hmin) h
  | some mn =>
      cases hmax : v.max? with
      | none => exact absurd (List.max?_eq_none_iff.mp hmax) h
      | some mx =>
          exact ⟨(mn, mx, ((v.sum : Rat)) / (v.length : Rat)),
            by simp only [getStatsInt, hmin, hmax]⟩

/-- Non-empty rational series have statistics, led by the series minimum. -/
theorem floatStats_some (v : List Rat) (h : v ≠ []) :
    ∃ mn mx mean, floatStats v = some (mn, mx, mean) ∧
      mn ∈ v ∧ ∀ b ∈ v, mn ≤ b := by
  cases hmin : v.min? with
  | none => exact absurd (List.min?_eq_none_iff.mp hmin) h
  | some mn =>
      cases hmax : v.max? with
      | none => exact absurd (List.max?_eq_none_iff.mp hmax) h
      | some mx =>
          obtain ⟨hmem, hle⟩ := rat_min?_spec v mn hmin
          exact ⟨mn, mx, v.sum / (v.length : Rat),
            by simp only [floatStats, hmin, hmax], hmem, hle⟩

/-- Severity characterization of a monitor report: over a window with data
in every series, the report lines carry the `warn` level exactly when every
game-time delta in the window is at least `1/10` of a second, and the
`info` level exactly when some delta is below `1/10`. -/
theorem report_severity_iff (fl : FrameLog)
    (h1 : fl.num_units ≠ []) (h2 : fl.num_ballistics ≠ [])
    (h3 : fl.game_times ≠ []) :
    (Level.warn ∈ levelsOf fl.log_to_console ↔
      ∀ d ∈ fl.game_times, 1/10 ≤ d) ∧
    (Level.info ∈ levelsOf fl.log_to_console ↔
      ∃ d ∈ fl.game_times, d < 1/10) := by
  have hempty : fl.is_empty = false := by
    simp [FrameLog.is_empty, List.length_eq_zero, h3]
  obtain ⟨⟨mn1, mx1, mean1⟩, hstats1⟩ := getStatsInt_some fl.num_units h1
  obtain ⟨⟨mn2, mx2, mean2⟩, hstats2⟩ :=
    getStatsInt_some fl.num_ballistics h2
  obtain ⟨g_min, g_max, g_mean, hg_stats, hg_mem, hg_le⟩ :=
    floatStats_some fl.game_times h3
  simp only [FrameLog.log_to_console, hempty, Bool.false_eq_true, if_false,
    hstats1, hstats2, hg_stats]
  by_cases hg : g_min < 1/10
  · rw [if_pos hg]
    have hnot_all : ¬ ∀ d ∈ fl.game_times, 1/10 ≤ d := fun hall =>
      absurd (hall g_min hg_mem) (not_le.mpr hg)
    have hex : ∃ d ∈ fl.game_times, d < 1/10 := ⟨g_min, hg_mem, hg⟩
    constructor
    · rw [iff_false_intro hnot_all, iff_false]
      repeat' split
      all_goals simp [levelsOf, LogEvent.level]
    · rw [iff_true_intro hex, iff_true]
      repeat' split
      all_goals simp [levelsOf, LogEvent.level]
  · rw [if_neg hg]
    have hall : ∀ d ∈ fl.game_times, 1/10 ≤ d := fun d hd =>
      le_trans (not_lt.mp hg) (hg_le d hd)
    have hnot_ex : ¬ ∃ d ∈ fl.game_times, d < 1/10 := by
      rintro ⟨d, hd, hdlt⟩
      exact absurd hdlt (not_lt.mpr (hall d hd))
    constructor
    · rw [iff_true_intro hall, iff_true]
      repeat' split
      all_goals simp [levelsOf, LogEvent.level]
    · rw [iff_false_intro hnot_ex, iff_false]
      repeat' split
      all_goals simp [levelsOf, LogEvent.level]

/-- C8 counterexample: a window holding a 50 ms frame and a 200 ms frame
observed a frame time above the 100 ms stall threshold, yet the report is
emitted at the informational level, because the source escalates on the
minimum of the window, not on an observed exceedance. -/
theorem report_severity_cex :
    (∃ d ∈ mixedWindow.game_times, 1/10 < d) ∧
    Level.info ∈ levelsOf mixedWindow.log_to_console ∧
    Level.warn ∉ levelsOf mixedWindow.log_to_console := by
  have h := report_severity_iff mixedWindow (by simp [mixedWindow])
    (by simp [mixedWindow]) (by simp [mixedWindow])
  refine ⟨⟨1/5, by simp [mixedWindow], by norm_num⟩, ?_, ?_⟩
  · exact h.2.mpr ⟨1/20, by simp [mixedWindow], by norm_num⟩
  · intro hw
    have := h.1.mp hw (1/20) (by simp [mixedWindow])
    norm_num at this

/-- C8 amended: a periodic report is emitted at the warning severity
exactly when the minimum observed frame time of the window is at least
100 ms — that is, when every frame in the window reached the stall
threshold — and at the informational severity exactly when some frame in
the window stayed below it. -/
theorem report_severity_min_based (fl : FrameLog)
    (h1 : fl.num_units ≠ []) (h2 : fl.num_ballistics ≠ [])
    (h3 : fl.game_times ≠ []) :
    (Level.warn ∈ levelsOf fl.log_to_console ↔
      ∀ d ∈ fl.game_times, 1/10 ≤ d) ∧
    (Level.info ∈ levelsOf fl.log_to_console ↔
      ∃ d ∈ fl.game_times, d < 1/10) :=
  report_severity_iff fl h1 h2 h3

/-- Witness for C8 amended at a window whose only frame took 200 ms. -/
theorem report_severity_min_based_witness :
    (Level.warn ∈ levelsOf slowWindow.log_to_console ↔
      ∀ d ∈ slowWindow.game_times, 1/10 ≤ d) ∧
    (Level.info ∈ levelsOf slowWindow.log_to_console ↔
      ∃ d ∈ slowWindow.game_times, d < 1/10) :=
  report_severity_min_based slowWindow (by simp [slowWindow])
    (by simp [slowWindow]) (by simp [slowWindow])

end Tetrad
